import Mathlib

/-!
Shallow embedding of `src/generate-diagram.py`.

The script is a single top-to-bottom pass that declares a tree of visual
clusters with typed, labelled leaf nodes, and then a list of directed,
labelled, optionally styled edges between leaf nodes, before handing the
whole structure to an external renderer.

The embedding mirrors that construction:
* `NodeId` enumerates the Python variables bound to icon nodes;
* `ClusterId` enumerates the `with Cluster(...)` blocks (identified by
  their structural position; their display names are label strings);
* `DTree` / `DForest` is the cluster tree with nodes as leaves, in the
  exact declaration order of the source;
* `EdgeDecl` records one directed edge with its label and optional
  `style` / `color` overrides;
* the builders `buildForest` / `buildEdges` are parametrised by a label
  assignment `LabelKey → String`; `defaultLabels` holds the exact label
  strings of the source, so `theForest` / `theEdges` is the structure the
  script builds.
-/

namespace OllamaEKS

/-- The Python variables bound to leaf icon nodes in `generate-diagram.py`. -/
inductive NodeId
  | claude_code
  | api_client
  | kong_gw
  | tgw
  | nlb
  | istio_gw
  | sys_nodes
  | gpu_node
  | svc
  | pod
  | vol
deriving DecidableEq, Fintype

/-- The icon class used for each node (the `diagrams` class it instantiates). -/
inductive NodeType
  | User
  | Kong
  | TransitGateway
  | NLB
  | Istio
  | EC2
  | Svc
  | Pod
  | EBS
deriving DecidableEq, Fintype

/-- Structural identifiers for the seven `with Cluster(...)` blocks of the
script, in declaration order: Team, the Kong-managed AWS account, your AWS
account, the VPC, the istio-ingress namespace, the EKS cluster, and the
ollama namespace. -/
inductive ClusterId
  | team
  | kongAcct
  | yourAcct
  | vpc
  | istioIngress
  | eks
  | ollamaNs
deriving DecidableEq, Fintype

/-- The eight `Edge(...)` declarations of the script, in source order.
`e1` is the fan-in edge shared by both actor nodes. -/
inductive EdgeId
  | e1
  | e2
  | e3
  | e4
  | e5
  | e6
  | e7
  | e8
deriving DecidableEq, Fintype

/-- A key naming one label string of the diagram: a node label, a cluster
display name, or an edge label. -/
inductive LabelKey
  | nodeL (n : NodeId)
  | clusterL (c : ClusterId)
  | edgeL (e : EdgeId)
deriving DecidableEq

/-- The exact label strings appearing in `generate-diagram.py`. -/
def defaultLabels : LabelKey → String
  | .nodeL .claude_code => "Claude Code\nqwen3-coder:32b"
  | .nodeL .api_client => "OpenAI-compatible\nClient"
  | .nodeL .kong_gw =>
      "Kong Cloud AI Gateway\nai-proxy  ·  key-auth\nai-rate-limiting  ·  prometheus"
  | .nodeL .tgw =>
      "Transit Gateway\nRAM Share → Kong account\nPrivate bridge  ·  never internet"
  | .nodeL .nlb => "Internal NLB\n(not internet-facing)"
  | .nodeL .istio_gw => "Istio Gateway\nGateway API  ·  mTLS"
  | .nodeL .sys_nodes => "System Nodes\n2× t3.medium"
  | .nodeL .gpu_node => "GPU Node\ng5.12xlarge\n4× NVIDIA A10G  ·  96 GB VRAM"
  | .nodeL .svc => "ClusterIP  :11434\nnever internet-exposed"
  | .nodeL .pod => "Ollama Pod\n4× GPU  ·  96 GB VRAM\nqwen3-coder:32b"
  | .nodeL .vol =>
      "EBS gp3  ·  200 GB\nAZ-local AWS block storage\nAttached to EC2 via Nitro NVMe\nRetain policy  ·  4000 IOPS"
  | .clusterL .team => "Team — Any Device · Any Location"
  | .clusterL .kongAcct =>
      "KONG INC — Managed AWS Account\n(You never operate this infrastructure)"
  | .clusterL .yourAcct =>
      "YOUR AWS ACCOUNT — us-west-2\n(You own · You control · Your prompts never leave)"
  | .clusterL .vpc => "VPC  10.0.0.0/16  ·  Private Subnets  ·  NAT Gateway"
  | .clusterL .istioIngress => "istio-ingress namespace"
  | .clusterL .eks => "EKS Cluster  ·  Kubernetes 1.31"
  | .clusterL .ollamaNs => "ollama namespace\n(NetworkPolicy: istio-ingress only)"
  | .edgeL .e1 => "① HTTPS"
  | .edgeL .e2 => "② Private peering\nKong CIDR: 192.168.0.0/16\nnever over internet"
  | .edgeL .e3 => "③ VPC attachment\n10.0.0.0/16"
  | .edgeL .e4 => "④"
  | .edgeL .e5 => "⑤ HTTPRoute → :11434"
  | .edgeL .e6 => "⑥"
  | .edgeL .e7 => "NVMe block device\n(Nitro hypervisor attach)"
  | .edgeL .e8 => "PVC mount\n/root/.ollama"

mutual
/-- One element of the diagram body: a labelled, typed leaf node, or a
named cluster with style attributes and an ordered list of children. -/
inductive DTree where
  | leaf : NodeId → NodeType → String → DTree
  | cluster : ClusterId → String → List (String × String) → DForest → DTree
/-- An ordered sequence of sibling `DTree` elements. -/
inductive DForest where
  | nil : DForest
  | cons : DTree → DForest → DForest
end

/-- One directed edge: the `src >> Edge(label, style, color) >> dst`
declarations of the script, with `none` meaning the keyword was omitted. -/
structure EdgeDecl where
  src : NodeId
  dst : NodeId
  label : String
  style : Option String
  color : Option String
deriving DecidableEq

/-- The keyword arguments of the `Diagram(...)` call (`show` is rendered
here as `showView` since `show` is a Lean keyword). -/
structure DiagramConfig where
  name : String
  filename : String
  outformat : String
  showView : Bool
  direction : String
  graph_attr : List (String × String)
  node_attr : List (String × String)
deriving DecidableEq

/-- The `Diagram(...)` keyword arguments of `generate-diagram.py`. -/
def theConfig : DiagramConfig :=
  { name := "Ollama on EKS — Private LLM Infrastructure"
    filename := "docs/architecture"
    outformat := "png"
    showView := false
    direction := "TB"
    graph_attr :=
      [("fontsize", "13"), ("fontname", "Helvetica"), ("bgcolor", "white"),
       ("pad", "0.75"), ("nodesep", "0.50"), ("ranksep", "0.90"),
       ("dpi", "150"), ("splines", "ortho")]
    node_attr := [("fontsize", "11"), ("fontname", "Helvetica")] }

/-- The cluster/node tree declared by the script, in source order, with the
label strings drawn from `l`.  Cluster style dictionaries are the
`graph_attr` arguments of the corresponding `Cluster(...)` calls. -/
def buildForest (l : LabelKey → String) : DForest :=
  .cons (.cluster .team (l (.clusterL .team)) []
    (.cons (.leaf .claude_code .User (l (.nodeL .claude_code)))
    (.cons (.leaf .api_client .User (l (.nodeL .api_client))) .nil)))
  (.cons (.cluster .kongAcct (l (.clusterL .kongAcct))
      [("bgcolor", "#dcfce7"), ("pencolor", "#16a34a"), ("penwidth", "3"),
       ("fontcolor", "#14532d"), ("fontsize", "12")]
    (.cons (.leaf .kong_gw .Kong (l (.nodeL .kong_gw))) .nil))
  (.cons (.cluster .yourAcct (l (.clusterL .yourAcct))
      [("bgcolor", "#fef9c3"), ("pencolor", "#d97706"), ("penwidth", "3"),
       ("fontcolor", "#78350f"), ("fontsize", "12")]
    (.cons (.leaf .tgw .TransitGateway (l (.nodeL .tgw)))
    (.cons (.cluster .vpc (l (.clusterL .vpc))
        [("bgcolor", "#eff6ff"), ("pencolor", "#60a5fa"), ("penwidth", "2")]
      (.cons (.cluster .istioIngress (l (.clusterL .istioIngress))
          [("bgcolor", "#e0e7ff"), ("pencolor", "#6366f1"), ("penwidth", "2")]
        (.cons (.leaf .nlb .NLB (l (.nodeL .nlb)))
        (.cons (.leaf .istio_gw .Istio (l (.nodeL .istio_gw))) .nil)))
      (.cons (.cluster .eks (l (.clusterL .eks))
          [("bgcolor", "#e0f2fe"), ("pencolor", "#0284c7"), ("penwidth", "2")]
        (.cons (.leaf .sys_nodes .EC2 (l (.nodeL .sys_nodes)))
        (.cons (.leaf .gpu_node .EC2 (l (.nodeL .gpu_node)))
        (.cons (.cluster .ollamaNs (l (.clusterL .ollamaNs))
            [("bgcolor", "#fce7f3"), ("pencolor", "#db2777"), ("penwidth", "2")]
          (.cons (.leaf .svc .Svc (l (.nodeL .svc)))
          (.cons (.leaf .pod .Pod (l (.nodeL .pod))) .nil))) .nil))))
      (.cons (.leaf .vol .EBS (l (.nodeL .vol))) .nil))))
    .nil)))
  .nil))

/-- The list of directed edges declared by the script, in source order.
`[claude_code, api_client] >> Edge(...) >> kong_gw` fans out into one edge
per source node, so the shared declaration `e1` yields the first two
entries.  The two storage edges carry `style="dashed"`, `color="#6b7280"`. -/
def buildEdges (l : LabelKey → String) : List EdgeDecl :=
  [⟨.claude_code, .kong_gw, l (.edgeL .e1), none, none⟩,
   ⟨.api_client, .kong_gw, l (.edgeL .e1), none, none⟩,
   ⟨.kong_gw, .tgw, l (.edgeL .e2), none, none⟩,
   ⟨.tgw, .nlb, l (.edgeL .e3), none, none⟩,
   ⟨.nlb, .istio_gw, l (.edgeL .e4), none, none⟩,
   ⟨.istio_gw, .svc, l (.edgeL .e5), none, none⟩,
   ⟨.svc, .pod, l (.edgeL .e6), none, none⟩,
   ⟨.gpu_node, .vol, l (.edgeL .e7), some "dashed", some "#6b7280"⟩,
   ⟨.pod, .vol, l (.edgeL .e8), some "dashed", some "#6b7280"⟩]

/-- The cluster/node tree the script actually builds. -/
def theForest : DForest := buildForest defaultLabels

/-- The edge list the script actually builds. -/
def theEdges : List EdgeDecl := buildEdges defaultLabels

mutual
/-- All leaf node ids of a tree, in declaration order. -/
def leavesT : DTree → List NodeId
  | .leaf i _ _ => [i]
  | .cluster _ _ _ ch => leavesF ch
/-- All leaf node ids of a forest, in declaration order. -/
def leavesF : DForest → List NodeId
  | .nil => []
  | .cons t ts => leavesT t ++ leavesF ts
end

mutual
/-- All leaf nodes of a tree together with their icon types. -/
def leafTypesT : DTree → List (NodeId × NodeType)
  | .leaf i t _ => [(i, t)]
  | .cluster _ _ _ ch => leafTypesF ch
/-- All leaf nodes of a forest together with their icon types. -/
def leafTypesF : DForest → List (NodeId × NodeType)
  | .nil => []
  | .cons t ts => leafTypesT t ++ leafTypesF ts
end

mutual
/-- All cluster ids of a tree, in preorder. -/
def clustersT : DTree → List ClusterId
  | .leaf _ _ _ => []
  | .cluster cid _ _ ch => cid :: clustersF ch
/-- All cluster ids of a forest, in preorder. -/
def clustersF : DForest → List ClusterId
  | .nil => []
  | .cons t ts => clustersT t ++ clustersF ts
end

mutual
/-- Depth of cluster nesting of a tree: a leaf nests no clusters, a cluster
nests one level more than the deepest of its children. -/
def depthT : DTree → Nat
  | .leaf _ _ _ => 0
  | .cluster _ _ _ ch => 1 + depthF ch
/-- Depth of cluster nesting of a forest: the deepest of its trees. -/
def depthF : DForest → Nat
  | .nil => 0
  | .cons t ts => max (depthT t) (depthF ts)
end

mutual
/-- The children forest of the cluster identified by `c`, if it occurs. -/
def subForestT (c : ClusterId) : DTree → Option DForest
  | .leaf _ _ _ => none
  | .cluster cid _ _ ch => if cid = c then some ch else subForestF c ch
/-- The children forest of the cluster identified by `c`, if it occurs. -/
def subForestF (c : ClusterId) : DForest → Option DForest
  | .nil => none
  | .cons t ts =>
      match subForestT c t with
      | some r => some r
      | none => subForestF c ts
end

mutual
/-- The immediate enclosing cluster of node `n` (`cur` is the cluster the
search is currently inside). -/
def parentT (cur : Option ClusterId) (n : NodeId) : DTree → Option ClusterId
  | .leaf i _ _ => if i = n then cur else none
  | .cluster cid _ _ ch => parentF (some cid) n ch
/-- The immediate enclosing cluster of node `n` within a forest. -/
def parentF (cur : Option ClusterId) (n : NodeId) : DForest → Option ClusterId
  | .nil => none
  | .cons t ts =>
      match parentT cur n t with
      | some c => some c
      | none => parentF cur n ts
end

mutual
/-- The label of leaf node `n`, if it occurs in the tree. -/
def nodeLabelT (n : NodeId) : DTree → Option String
  | .leaf i _ lab => if i = n then some lab else none
  | .cluster _ _ _ ch => nodeLabelF n ch
/-- The label of leaf node `n`, if it occurs in the forest. -/
def nodeLabelF (n : NodeId) : DForest → Option String
  | .nil => none
  | .cons t ts =>
      match nodeLabelT n t with
      | some s => some s
      | none => nodeLabelF n ts
end

mutual
/-- The display name of cluster `c`, if it occurs in the tree. -/
def clusterNameT (c : ClusterId) : DTree → Option String
  | .leaf _ _ _ => none
  | .cluster cid nm _ ch => if cid = c then some nm else clusterNameF c ch
/-- The display name of cluster `c`, if it occurs in the forest. -/
def clusterNameF (c : ClusterId) : DForest → Option String
  | .nil => none
  | .cons t ts =>
      match clusterNameT c t with
      | some s => some s
      | none => clusterNameF c ts
end

/-- The leaf nodes that are direct children of a forest (not inside a
nested cluster). -/
def topLeaves : DForest → List NodeId
  | .nil => []
  | .cons (.leaf i _ _) ts => i :: topLeaves ts
  | .cons (.cluster _ _ _ _) ts => topLeaves ts

/-- The clusters that are direct children of a forest. -/
def topClusters : DForest → List ClusterId
  | .nil => []
  | .cons (.leaf _ _ _) ts => topClusters ts
  | .cons (.cluster cid _ _ _) ts => cid :: topClusters ts

/-- Number of top-level regions (clusters directly under the diagram). -/
def topClusterCount : Nat := (topClusters theForest).length

/-- Number of leaf nodes in the diagram. -/
def leafCount : Nat := (leavesF theForest).length

/-- Number of leaf nodes of icon type `t` in the diagram. -/
def countType (t : NodeType) : Nat :=
  (leafTypesF theForest).countP (fun p => p.2 == t)

/-- Cluster nesting depth strictly inside cluster `c` of the diagram. -/
def nestingInside (c : ClusterId) : Nat :=
  match subForestF c theForest with
  | some ch => depthF ch
  | none => 0

/-- All leaf nodes contained (at any depth) in cluster `c` of the diagram. -/
def membersOf (c : ClusterId) : List NodeId :=
  match subForestF c theForest with
  | some ch => leavesF ch
  | none => []

/-- The leaf nodes that are direct children of cluster `c` of the diagram. -/
def directLeafChildren (c : ClusterId) : List NodeId :=
  match subForestF c theForest with
  | some ch => topLeaves ch
  | none => []

/-- The clusters that are direct children of cluster `c` of the diagram. -/
def directClusterChildren (c : ClusterId) : List ClusterId :=
  match subForestF c theForest with
  | some ch => topClusters ch
  | none => []

/-- The immediate enclosing cluster of node `n` in the diagram. -/
def parentCluster (n : NodeId) : Option ClusterId :=
  parentF none n theForest

/-- The non-storage edges: every edge not pointing at the storage volume. -/
def nonStorageEdges : List EdgeDecl :=
  theEdges.filter (fun e => !(e.dst == .vol))

/-- In-degree of node `n` in the diagram edge list. -/
def inDeg (n : NodeId) : Nat :=
  (theEdges.filter (fun e => e.dst == n)).length

/-- Out-degree of node `n` in the diagram edge list. -/
def outDeg (n : NodeId) : Nat :=
  (theEdges.filter (fun e => e.src == n)).length

/-- The one-step edge relation of the diagram, as a boolean. -/
def edgeRelB (a b : NodeId) : Bool :=
  theEdges.any (fun e => e.src == a && e.dst == b)

/-- The one-step edge relation of the diagram, as a proposition. -/
@[reducible] def edgeStep (a b : NodeId) : Prop := edgeRelB a b = true

/-- A topological rank for the diagram nodes: every declared edge goes from
a lower rank to a strictly higher one. -/
def rankOf : NodeId → Nat
  | .claude_code => 0
  | .api_client => 0
  | .sys_nodes => 0
  | .gpu_node => 0
  | .kong_gw => 1
  | .tgw => 2
  | .nlb => 3
  | .istio_gw => 4
  | .svc => 5
  | .pod => 6
  | .vol => 7

mutual
/-- The label-erased shape of a tree: node ids, icon types, cluster ids and
style attributes survive; every label string is dropped. -/
inductive ShapeT where
  | leaf : NodeId → NodeType → ShapeT
  | cluster : ClusterId → List (String × String) → ShapeF → ShapeT
/-- The label-erased shape of a forest. -/
inductive ShapeF where
  | nil : ShapeF
  | cons : ShapeT → ShapeF → ShapeF
end

mutual
/-- Erase all label strings from a tree. -/
def shapeT : DTree → ShapeT
  | .leaf i t _ => .leaf i t
  | .cluster cid _ attrs ch => .cluster cid attrs (shapeF ch)
/-- Erase all label strings from a forest. -/
def shapeF : DForest → ShapeF
  | .nil => .nil
  | .cons t ts => .cons (shapeT t) (shapeF ts)
end

/-- Erase the label from an edge, keeping endpoints and style. -/
def edgeShape (e : EdgeDecl) : NodeId × NodeId × Option String × Option String :=
  (e.src, e.dst, e.style, e.color)

/-- The topology of the diagram built from label assignment `l`: the
label-erased cluster tree and the label-erased edge list. -/
def topology (l : LabelKey → String) :
    ShapeF × List (NodeId × NodeId × Option String × Option String) :=
  (shapeF (buildForest l), (buildEdges l).map edgeShape)

/-- Position of each `Edge(...)` declaration in the built edge list (the
shared declaration `e1` produces entries 0 and 1; we read entry 0). -/
def edgeIdx : EdgeId → Nat
  | .e1 => 0
  | .e2 => 2
  | .e3 => 3
  | .e4 => 4
  | .e5 => 5
  | .e6 => 6
  | .e7 => 7
  | .e8 => 8

/-- Read one label of the diagram built from label assignment `l` back out
of the built structure. -/
def labelOf (l : LabelKey → String) : LabelKey → Option String
  | .nodeL n => nodeLabelF n (buildForest l)
  | .clusterL c => clusterNameF c (buildForest l)
  | .edgeL i => ((buildEdges l).get? (edgeIdx i)).map EdgeDecl.label

/-- One run of the builder: the script takes no input, so a run is a
function of the trivial input producing the full built structure. -/
def run (_u : Unit) : DiagramConfig × DForest × List EdgeDecl :=
  (theConfig, theForest, theEdges)

/-- Modelled from the spec: the external `diagrams` library, handed the
`Diagram` keyword arguments, renders exactly one output file, at the path
`filename ++ "." ++ outformat`; with `show=False` it opens no viewer and
writes nothing else.  The rendering mechanics themselves live outside this
repository. -/
def outputFiles (c : DiagramConfig) : List String :=
  [c.filename ++ "." ++ c.outformat]

end OllamaEKS


namespace OllamaEKS

/-- Every label of the built diagram reads back as the assigned label
string: the builder embeds each value of the label assignment in exactly
the position the corresponding lookup reads. -/
theorem labelOf_build (l : LabelKey → String) (k : LabelKey) :
    labelOf l k = some (l k) := by
  cases k with
  | nodeL n => cases n <;> rfl
  | clusterL c => cases c <;> rfl
  | edgeL i => cases i <;> rfl

/-- Every declared edge goes from a node of strictly lower topological rank
to one of strictly higher rank. -/
theorem edge_increases_rank :
    ∀ a b : NodeId, edgeRelB a b = true → rankOf a < rankOf b := by
  decide

/-- Claim C1, as stated, is false of the built graph: it asserts 5
top-level regions and 13 leaf nodes, but the script declares 3 top-level
clusters and 11 leaf nodes. -/
theorem C1_claim_counterexample :
    ¬ (topClusterCount = 5 ∧ nestingInside .yourAcct = 3 ∧ leafCount = 13) := by
  decide

/-- Claim C1 (amended): the graph contains exactly 3 top-level regions
(the team, managed-provider-account and your-account clusters, with no
top-level leaf node), exactly 3 levels of cluster nesting inside the
your-account cluster, and exactly 11 leaf nodes: 2 actor nodes, 2
compute-instance nodes, 1 storage node, 1 service node, 1 pod node, 1
provider API-gateway node, 1 load balancer, 1 service-mesh gateway and 1
transit gateway. -/
theorem C1_amended_structure :
    topClusterCount = 3 ∧
    topClusters theForest = [.team, .kongAcct, .yourAcct] ∧
    topLeaves theForest = [] ∧
    nestingInside .yourAcct = 3 ∧
    leafCount = 11 ∧
    countType .User = 2 ∧ countType .EC2 = 2 ∧ countType .EBS = 1 ∧
    countType .Svc = 1 ∧ countType .Pod = 1 ∧ countType .Kong = 1 ∧
    countType .NLB = 1 ∧ countType .Istio = 1 ∧
    countType .TransitGateway = 1 := by
  decide

/-- Claim C2, as stated, is false: neither the edge list nor its set of
distinct source–target pairs has 8 elements (both have 9: the shared
actor edge declaration fans out into two edges). -/
theorem C2_claim_counterexample :
    ¬ (theEdges.length = 8 ∨
       (theEdges.map fun e => (e.src, e.dst)).dedup.length = 8) := by
  decide

/-- Claim C2 (amended): the directed edge set contains exactly 9 edges —
the 8 `Edge(...)` declarations yield 9 edges because the first declaration
is shared by both actor nodes — and the 9 source–target pairs are pairwise
distinct. -/
theorem C2_amended_edge_count :
    theEdges.length = 9 ∧
    (theEdges.map fun e => (e.src, e.dst)).dedup.length = 9 := by
  decide

/-- Claim C3: the non-storage edges are exactly, in declaration order, the
two actor→gateway edges labelled with the HTTPS step, gateway→transit
gateway (private peering, CIDR, never over internet), transit
gateway→load balancer (VPC attachment and CIDR), load balancer→mesh
gateway (plain step ④), mesh gateway→service (HTTPRoute to port 11434)
and service→pod (plain step ⑥), all unstyled, with no other non-storage
edge. -/
theorem C3_nonstorage_chain :
    nonStorageEdges =
      [⟨.claude_code, .kong_gw, "① HTTPS", none, none⟩,
       ⟨.api_client, .kong_gw, "① HTTPS", none, none⟩,
       ⟨.kong_gw, .tgw,
        "② Private peering\nKong CIDR: 192.168.0.0/16\nnever over internet",
        none, none⟩,
       ⟨.tgw, .nlb, "③ VPC attachment\n10.0.0.0/16", none, none⟩,
       ⟨.nlb, .istio_gw, "④", none, none⟩,
       ⟨.istio_gw, .svc, "⑤ HTTPRoute → :11434", none, none⟩,
       ⟨.svc, .pod, "⑥", none, none⟩] := by
  decide

/-- Claim C4: the storage-volume node is a direct child of the VPC
cluster, a sibling of the EKS cluster (itself a direct child of the VPC),
and is contained neither in the EKS cluster nor in the ollama namespace. -/
theorem C4_volume_placement :
    NodeId.vol ∈ directLeafChildren .vpc ∧
    ClusterId.eks ∈ directClusterChildren .vpc ∧
    (membersOf .eks).contains .vol = false ∧
    (membersOf .ollamaNs).contains .vol = false := by
  decide

/-- Claim C5: exactly the two storage-attach edges (GPU node→volume and
pod→volume) carry a style override, namely dashed lines in gray #6b7280;
every other edge carries no style and no color. -/
theorem C5_dashed_edges :
    theEdges.filter (fun e => !(e.style == none && e.color == none)) =
      [⟨.gpu_node, .vol, "NVMe block device\n(Nitro hypervisor attach)",
        some "dashed", some "#6b7280"⟩,
       ⟨.pod, .vol, "PVC mount\n/root/.ollama",
        some "dashed", some "#6b7280"⟩] := by
  decide

/-- Claim C6: every node occurs exactly once as a leaf of the cluster
tree, every cluster occurs exactly once (so each has a unique parent or is
top-level), both endpoints of every edge are leaf nodes, and at least one
edge joins nodes whose enclosing clusters differ. -/
theorem C6_tree_invariant :
    (leavesF theForest).Nodup ∧
    (∀ n : NodeId, n ∈ leavesF theForest) ∧
    (clustersF theForest).Nodup ∧
    (∀ c : ClusterId, c ∈ clustersF theForest) ∧
    theEdges.all (fun e =>
      (leavesF theForest).contains e.src &&
      (leavesF theForest).contains e.dst) = true ∧
    theEdges.any
      (fun e => !(parentCluster e.src == parentCluster e.dst)) = true := by
  decide

/-- Claim C7: the builder is configured to emit exactly one output file,
the image docs/architecture.png (filename docs/architecture, format png),
and to open no viewer; `outputFiles` models the external renderer per the
spec. -/
theorem C7_single_output :
    outputFiles theConfig = ["docs/architecture.png"] ∧
    theConfig.showView = false ∧
    theConfig.filename = "docs/architecture" ∧
    theConfig.outformat = "png" := by
  decide

/-- Claim C8: the builder takes no input and is a pure construction, so
any two runs produce the identical configuration, cluster tree (hence node
set, labels and cluster membership) and edge list. -/
theorem C8_deterministic : ∀ u v : Unit, run u = run v :=
  fun _ _ => rfl

/-- Claim C9: for two runs whose label assignments differ in at most the
one key `k`, the topologies (label-erased cluster tree and edge list) are
identical, and every label other than `k` reads back unchanged. -/
theorem C9_label_noninterference
    (l : LabelKey → String) (k : LabelKey) (s : String) :
    topology (Function.update l k s) = topology l ∧
    ∀ k', k' ≠ k →
      labelOf (Function.update l k s) k' = labelOf l k' := by
  refine ⟨rfl, ?_⟩
  intro k' hk
  rw [labelOf_build, labelOf_build, Function.update_noteq hk]

/-- Concrete instance of Claim C9: replacing the pod label leaves the
topology and the service label unchanged. -/
theorem C9_label_noninterference_witness :
    topology (Function.update defaultLabels (.nodeL .pod) "patched")
      = topology defaultLabels ∧
    labelOf (Function.update defaultLabels (.nodeL .pod) "patched")
        (.nodeL .svc)
      = labelOf defaultLabels (.nodeL .svc) :=
  ⟨(C9_label_noninterference defaultLabels (.nodeL .pod) "patched").1,
   (C9_label_noninterference defaultLabels (.nodeL .pod) "patched").2
     (.nodeL .svc) (by decide)⟩

/-- Claim C10: the edge set is acyclic — along any nonempty directed path
the topological rank strictly increases, so no node reaches itself — the
two actor nodes have in-degree 0, and the storage volume has out-degree 0
and in-degree 2. -/
theorem C10_dag_invariant :
    (∀ a b : NodeId, Relation.TransGen edgeStep a b → rankOf a < rankOf b) ∧
    (∀ a : NodeId, ¬ Relation.TransGen edgeStep a a) ∧
    inDeg .claude_code = 0 ∧ inDeg .api_client = 0 ∧
    outDeg .vol = 0 ∧ inDeg .vol = 2 := by
  have mono :
      ∀ a b : NodeId, Relation.TransGen edgeStep a b → rankOf a < rankOf b := by
    intro a b h
    induction h with
    | single h1 => exact edge_increases_rank _ _ h1
    | tail _ h1 ih => exact lt_trans ih (edge_increases_rank _ _ h1)
  exact ⟨mono, fun a h => absurd (mono a a h) (lt_irrefl _),
    by decide, by decide, by decide, by decide⟩

/-- Concrete instance of Claim C10: the actor→gateway edge is a nonempty
path, so the gateway ranks strictly above the actor; and the storage
volume receives exactly two edges. -/
theorem C10_dag_invariant_witness :
    rankOf .claude_code < rankOf .kong_gw ∧ inDeg .vol = 2 :=
  ⟨C10_dag_invariant.1 _ _ (Relation.TransGen.single (by decide)),
   C10_dag_invariant.2.2.2.2.2⟩

end OllamaEKS
